/-
  Verification development for the xtra kernel/bootloader repository.

  Shallow embedding of the components the claims concern:
    * `Xtra.FPL`    — the intrusive free-page list
                      (src/xtra-kernel/src/memory/mmu/free_page_list.rs),
    * `Xtra.SV39`   — the three-level SV39 page table, its entries and walks
                      (src/xtra-kernel/src/arch/riscv_64/mmu/sv39/),
    * `Xtra.PagePtr`— physical/virtual page-pointer construction
                      (src/xtra-kernel/src/memory/mmu/virtual_page_ptr.rs),
    * `Xtra.VirtIO` — the bootloader's VirtIO block-device driver
                      (src/xtra-bootloader/src/block_device.rs).

  Conventions used throughout:
    * machine integers are `Nat` with explicit wrap (`% 2 ^ 16`, `% 2 ^ 64`)
      where the source can overflow;
    * Rust panics (assert!/expect/unwrap/unreachable!) are modelled as
      `Except` errors with one constructor per abort site;
    * fallible Rust functions returning `Result` are modelled as `Except`
      with one constructor per error value;
    * raw pointers into pages are modelled by the physical address of the
      page they point to (the kernel's physical-to-virtual window is a fixed
      additive bijection, so this keys the same memory cells);
    * the intrusive heap (bookkeeping stored inside the managed pages) is an
      explicit association list from page address to the record stored there.
-/
import Mathlib

namespace Xtra

/-- Page size used by both crates (`PAGE_SIZE` in memory/mod.rs and
arch/riscv_64/mmu/mod.rs). -/
def PAGE_SIZE : Nat := 4096

namespace FPL

/-- Abort reasons for the free-page-list model.  Each constructor corresponds
to one panic site in free_page_list.rs (assert!, expect, unwrap or
unreachable!), or to dereferencing a pointer that is not backed by a page
record (undefined behaviour in the source, a distinguished error here). -/
inductive KPanic where
  /-- Dereferenced a page pointer with no record in the heap model. -/
  | badPointer
  /-- `Option::unwrap` on `None`. -/
  | unwrapNone
  /-- "Address must be aligned to page boundary" (FreeMemoryPage::new,
  add_free_page, add_n_free_pages). -/
  | unalignedAddress
  /-- FreeMemoryPagePtr::try_from failed: the address is null or outside the
  physical address window (panic in FreeMemoryPage::new). -/
  | nullOrOutOfRange
  /-- "Inconsistent state of free page list" (assert in is_empty). -/
  | inconsistentListState
  /-- "First page pointer must not have a previous page when adding a new
  page." (add_free_page_to_beginning). -/
  | firstHasPrevOnAddBeginning
  /-- "New page address must be greater than the first page address."
  (add_free_page_to_beginning; note the source compares
  `page.address > first_page_ptr.address` while inserting BEFORE the head). -/
  | newPageNotGreaterThanFirst
  /-- "Last page pointer must not have a next page when adding a new page."
  (add_free_page_to_end). -/
  | lastHasNextOnAddEnd
  /-- "New page address must be greater than the last page address."
  (add_free_page_to_end). -/
  | newPageNotGreaterThanLast
  /-- "Trying to insert a duplicate page ..." (several sites). -/
  | duplicatePage
  /-- "Failed to find parent page ..." (expect in insert_page /
  insert_page_list). -/
  | noInsertionPoint
  /-- "Pages are not contiguous or in order." (insert_page_list). -/
  | runNotContiguous
  /-- "Last page found address does not match the expected last page
  address." (pages_are_contiguous). -/
  | runLastMismatch
  /-- "First page in the list should not have a previous page, but it does."
  (insert_page_list, begin path, checked after the links are rewired). -/
  | firstPageHasPrev
  /-- "Last page in the list should not have a next page, but it does."
  (insert_page_list, end path). -/
  | lastPageHasNext
  /-- "Parent page should have a next page, but it does not."
  (insert_page_list, middle path). -/
  | parentHasNoNext
  /-- "Trying to insert a page at ... before parent page at ..."
  (insert_page_list, middle path). -/
  | parentAfterNewPage
  /-- "Can not remove zero pages ..." / "Count must be greater than zero"
  (remove_page_list / add_n_free_pages). -/
  | zeroCount
  /-- `unreachable!()` after the search loop of find_insertion_point, also
  used when a loop exceeds the heap-length fuel (only possible on a cyclic
  pointer structure, where the source would not terminate). -/
  | unreachableCode
deriving DecidableEq

/-- The bookkeeping record stored inside each free page
(`FreeMemoryPage` in free_page_list.rs).  Sibling pointers are represented by
the page address they refer to. -/
structure FreeMemoryPage where
  address : Nat
  prev_page : Option Nat
  next_page : Option Nat
deriving DecidableEq

/-- The free-page list (`FreePageList`) together with the memory that backs
its intrusive nodes and the physical-address bound used by pointer
validation (`HIGHEST_PHYSICAL_ADDRESS`). `heap` maps a page address to the
`FreeMemoryPage` record stored in that page. -/
structure FreePageList where
  heap : List (Nat × FreeMemoryPage)
  first_page : Option Nat
  last_page : Option Nat
  highest : Nat
deriving DecidableEq

/-- A fresh, empty list over a system whose RAM ends at `highest`
(`FreePageList::new`). -/
def FreePageList.new (highest : Nat) : FreePageList :=
  ⟨[], none, none, highest⟩

/-- Read the bookkeeping record stored at page `p` (a pointer dereference in
the source). -/
def readPage (s : FreePageList) (p : Nat) : Except KPanic FreeMemoryPage :=
  match s.heap.lookup p with
  | some pg => .ok pg
  | none => .error .badPointer

/-- Store the bookkeeping record `pg` at page `p` (a write through a page
pointer in the source). -/
def writePage (s : FreePageList) (p : Nat) (pg : FreeMemoryPage) : FreePageList :=
  if (s.heap.lookup p).isSome then
    { s with heap := s.heap.map (fun kv => if kv.1 = p then (p, pg) else kv) }
  else
    { s with heap := (p, pg) :: s.heap }

/-- `Option::unwrap`. -/
def unwrapO {α : Type} : Option α → Except KPanic α
  | some a => .ok a
  | none => .error .unwrapNone

/-- `FreeMemoryPage::new`: validates the page address, zeroes the page,
writes the record into it and returns the page pointer.  The pointer
validation comes from `FreeMemoryPagePtr::try_from`, which (in physical
mode) rejects unaligned, null and out-of-window addresses; a failure there
is a panic in the source. -/
def newFreePage (s : FreePageList) (address : Nat) (prev next : Option Nat) :
    Except KPanic (FreePageList × Nat) :=
  if address % PAGE_SIZE ≠ 0 then .error .unalignedAddress
  else if address = 0 ∨ ¬ (address < s.highest) then .error .nullOrOutOfRange
  else .ok (writePage s address ⟨address, prev, next⟩, address)

/-- `FreeMemoryPage::clear`: zero the record's fields. -/
def clearPage (s : FreePageList) (p : Nat) : Except KPanic FreePageList := do
  let _ ← readPage s p
  pure (writePage s p ⟨0, none, none⟩)

/-- `FreePageList::is_empty`, including its consistency assertion relating
`first_page` and `last_page`. -/
def is_empty (s : FreePageList) : Except KPanic Bool := do
  let empty := s.first_page.isNone
  if (if empty then s.last_page.isNone else s.last_page.isSome) then
    pure empty
  else
    throw .inconsistentListState

/-- `FreePageList::add_free_page_to_beginning`.  The second assertion is
transcribed exactly as in the source: it requires the NEW page's address to
be GREATER than the current head's even though the page is being linked in
before the head. -/
def add_free_page_to_beginning (s : FreePageList) (page : Nat) :
    Except KPanic FreePageList := do
  if ← is_empty s then
    pure { s with first_page := some page, last_page := some page }
  else do
    let fp ← unwrapO s.first_page
    let fpg ← readPage s fp
    if fpg.prev_page.isSome then throw .firstHasPrevOnAddBeginning
    let pg ← readPage s page
    if ¬ (pg.address > fpg.address) then throw .newPageNotGreaterThanFirst
    let s := writePage s page { pg with next_page := some fp }
    let s := writePage s fp { (← readPage s fp) with prev_page := some page }
    pure { s with first_page := some page }

/-- `FreePageList::add_free_page_to_end`. -/
def add_free_page_to_end (s : FreePageList) (page : Nat) :
    Except KPanic FreePageList := do
  if ← is_empty s then
    pure { s with first_page := some page, last_page := some page }
  else do
    let lp ← unwrapO s.last_page
    let lpg ← readPage s lp
    if lpg.next_page.isSome then throw .lastHasNextOnAddEnd
    let pg ← readPage s page
    if ¬ (lpg.address < pg.address) then throw .newPageNotGreaterThanLast
    let s := writePage s lp { lpg with next_page := some page }
    let s := writePage s page { (← readPage s page) with prev_page := some lp }
    pure { s with last_page := some page }

/-- `FreePageList::is_page_at_beginning` (with its duplicate assertion). -/
def is_page_at_beginning (s : FreePageList) (page : Nat) : Except KPanic Bool := do
  match s.first_page with
  | some fp => do
    let fpg ← readPage s fp
    let pg ← readPage s page
    if fpg.address = pg.address then throw .duplicatePage
    pure (fpg.address > pg.address)
  | none => pure false

/-- `FreePageList::is_page_at_end` (with its duplicate assertion). -/
def is_page_at_end (s : FreePageList) (page : Nat) : Except KPanic Bool := do
  match s.last_page with
  | some lp => do
    let lpg ← readPage s lp
    let pg ← readPage s page
    if lpg.address = pg.address then throw .duplicatePage
    pure (lpg.address < pg.address)
  | none => pure false

/-- Search loop of `FreePageList::find_insertion_point`.  Fuel bounds the
walk by the number of allocated records plus one; running out of fuel can
only happen on a cyclic structure (where the source would spin forever) and
maps to the function's `unreachable!()`. -/
def findInsertionPointAux (s : FreePageList) (newAddr : Nat) :
    Option Nat → Nat → Except KPanic (Option Nat)
  | _, 0 => throw .unreachableCode
  | none, _ + 1 => throw .unreachableCode
  | some cur, fuel + 1 => do
    let cpg ← readPage s cur
    match cpg.next_page with
    | some nxt => do
      let npg ← readPage s nxt
      if npg.address > newAddr then pure (some cur)
      else findInsertionPointAux s newAddr (some nxt) fuel
    | none => pure (some cur)

/-- `FreePageList::find_insertion_point`. -/
def find_insertion_point (s : FreePageList) (newPage : Nat) :
    Except KPanic (Option Nat) := do
  if ← is_empty s then pure none
  else do
    let pg ← readPage s newPage
    findInsertionPointAux s pg.address s.first_page (s.heap.length + 1)

/-- `FreePageList::insert_page`. -/
def insert_page (s : FreePageList) (newPage : Nat) : Except KPanic FreePageList := do
  if ← is_empty s then add_free_page_to_end s newPage
  else if ← is_page_at_end s newPage then add_free_page_to_end s newPage
  else if ← is_page_at_beginning s newPage then add_free_page_to_beginning s newPage
  else do
    let parentO ← find_insertion_point s newPage
    let parent ← match parentO with
      | some p => pure p
      | none => throw .noInsertionPoint
    let ppg ← readPage s parent
    let npg ← readPage s newPage
    if ppg.address = npg.address then throw .duplicatePage
    let originalNext := ppg.next_page
    let s := writePage s newPage { npg with prev_page := some parent, next_page := originalNext }
    let s := writePage s parent { (← readPage s parent) with next_page := some newPage }
    match originalNext with
    | some nxt => do
      pure (writePage s nxt { (← readPage s nxt) with prev_page := some newPage })
    | none => pure { s with last_page := some newPage }

/-- Walk of `FreePageList::pages_are_contiguous`: follow `next` from `cur`
until the recorded last address is reached; a gap yields `false`; falling off
the chain first trips the source's final assertion. -/
def pagesAreContiguousAux (s : FreePageList) (lastAddr : Nat) :
    Nat → Nat → Except KPanic Bool
  | _, 0 => throw .unreachableCode
  | cur, fuel + 1 => do
    let cpg ← readPage s cur
    if cpg.address = lastAddr then pure true
    else match cpg.next_page with
      | some nxt => do
        let npg ← readPage s nxt
        if npg.address ≠ cpg.address + PAGE_SIZE then pure false
        else pagesAreContiguousAux s lastAddr nxt fuel
      | none => throw .runLastMismatch

/-- `FreePageList::pages_are_contiguous`. -/
def pages_are_contiguous (s : FreePageList) (firstP lastP : Nat) :
    Except KPanic Bool := do
  let lpg ← readPage s lastP
  pagesAreContiguousAux s lpg.address firstP (s.heap.length + 1)

/-- `FreePageList::insert_page_list`.  Note the begin path: the source first
gives the old head a `prev_page` pointer and then asserts that the old head
has no `prev_page`. -/
def insert_page_list (s : FreePageList) (firstP lastP : Nat) :
    Except KPanic FreePageList := do
  if ¬ (← pages_are_contiguous s firstP lastP) then throw .runNotContiguous
  if ← is_empty s then
    pure { s with first_page := some firstP, last_page := some lastP }
  else do
    let sf ← unwrapO s.first_page
    let sfpg ← readPage s sf
    let fpg ← readPage s firstP
    let lpg ← readPage s lastP
    if sfpg.address > fpg.address then do
      if ¬ (sfpg.address ≥ lpg.address) then throw .duplicatePage
      let s := { s with first_page := some firstP }
      let s := writePage s lastP { (← readPage s lastP) with next_page := some sf }
      let s := writePage s sf { (← readPage s sf) with prev_page := some lastP }
      if (← readPage s sf).prev_page.isSome then throw .firstPageHasPrev
      pure s
    else do
      if s.last_page.isNone then throw .inconsistentListState
      let sl ← unwrapO s.last_page
      let slpg ← readPage s sl
      if slpg.address < fpg.address then do
        if ¬ (slpg.address ≤ lpg.address) then throw .duplicatePage
        let s := writePage s sl { slpg with next_page := some firstP }
        let s := writePage s firstP { (← readPage s firstP) with prev_page := some sl }
        let s := { s with last_page := some lastP }
        if (← readPage s lastP).next_page.isSome then throw .lastPageHasNext
        pure s
      else do
        let parentO ← find_insertion_point s firstP
        let parent ← match parentO with
          | some p => pure p
          | none => throw .noInsertionPoint
        let ppg ← readPage s parent
        if ppg.address = fpg.address then throw .duplicatePage
        if ¬ (ppg.address < fpg.address) then throw .parentAfterNewPage
        let origNext ← match ppg.next_page with
          | some n => pure n
          | none => throw .parentHasNoNext
        let s := writePage s parent { (← readPage s parent) with next_page := some firstP }
        let s := writePage s firstP { (← readPage s firstP) with prev_page := some parent }
        let s := writePage s lastP { (← readPage s lastP) with next_page := some origNext }
        pure (writePage s origNext { (← readPage s origNext) with prev_page := some lastP })

/-- `FreePageList::remove_page`: pop the head pointer.  Transcribed exactly:
only `first_page` is updated; the new head's `prev_page` and the list's
`last_page` are left as they are. -/
def remove_page (s : FreePageList) : Except KPanic (FreePageList × Option Nat) := do
  if ← is_empty s then pure (s, none)
  else do
    let p ← unwrapO s.first_page
    let ppg ← readPage s p
    pure ({ s with first_page := ppg.next_page }, some p)

/-- Inner walk of `FreePageList::find_contiguous_pages`: `remaining` is the
number of pages still needed beyond the current one. -/
def findContiguousAux (s : FreePageList) : Nat → Nat → Except KPanic (Option Nat)
  | cur, 0 => pure (some cur)
  | cur, remaining + 1 => do
    let cpg ← readPage s cur
    match cpg.next_page with
    | some nxt => do
      let npg ← readPage s nxt
      if cpg.address + PAGE_SIZE = npg.address then findContiguousAux s nxt remaining
      else pure none
    | none => pure none

/-- `FreePageList::find_contiguous_pages`. -/
def find_contiguous_pages (s : FreePageList) (start count : Nat) :
    Except KPanic (Option Nat) :=
  if count = 0 then pure none
  else if count = 1 then pure (some start)
  else findContiguousAux s start (count - 1)

/-- Scan loop of `FreePageList::remove_page_list`. -/
def removePageListAux (s : FreePageList) (count : Nat) :
    Option Nat → Nat → Except KPanic (FreePageList × Option Nat)
  | none, _ => pure (s, none)
  | some _, 0 => throw .unreachableCode
  | some cur, fuel + 1 => do
    match ← find_contiguous_pages s cur count with
    | some lastPtr => do
      let cpg ← readPage s cur
      let lpg ← readPage s lastPtr
      let prevP := cpg.prev_page
      let nextP := lpg.next_page
      let s ← match prevP with
        | some pp => pure (writePage s pp { (← readPage s pp) with next_page := nextP })
        | none => pure { s with first_page := nextP }
      let s ← match nextP with
        | some np => pure (writePage s np { (← readPage s np) with prev_page := prevP })
        | none => pure { s with last_page := prevP }
      let s := writePage s cur { (← readPage s cur) with prev_page := none }
      let s := writePage s lastPtr { (← readPage s lastPtr) with next_page := none }
      pure (s, some cur)
    | none => do
      let cpg ← readPage s cur
      removePageListAux s count cpg.next_page fuel

/-- `FreePageList::remove_page_list`. -/
def remove_page_list (s : FreePageList) (count : Nat) :
    Except KPanic (FreePageList × Option Nat) := do
  if count = 0 then throw .zeroCount
  else if ← is_empty s then pure (s, none)
  else if count = 1 then remove_page s
  else removePageListAux s count s.first_page (s.heap.length + 1)

/-- Module-level `add_free_page`: validate alignment, build the node, insert
it in sorted position. -/
def add_free_page (s : FreePageList) (addr : Nat) : Except KPanic FreePageList := do
  if addr % PAGE_SIZE ≠ 0 then throw .unalignedAddress
  let (s, p) ← newFreePage s addr none none
  insert_page s p

/-- Module-level `remove_free_page`: pop the head, read its address, zero
its bookkeeping, return the address. -/
def remove_free_page (s : FreePageList) : Except KPanic (FreePageList × Option Nat) := do
  let (s, pO) ← remove_page s
  match pO with
  | some p => do
    let addr := (← readPage s p).address
    let s ← clearPage s p
    pure (s, some addr)
  | none => pure (s, none)

/-- Run-building loop of `add_n_free_pages`: create `k` further pages after
`cur`, each `PAGE_SIZE` above the previous, linking them as a doubly linked
run; returns the final (last) page. -/
def buildRunAux : FreePageList → Nat → Nat → Nat → Except KPanic (FreePageList × Nat)
  | s, cur, _, 0 => pure (s, cur)
  | s, cur, nextAddr, k + 1 => do
    let (s, np) ← newFreePage s nextAddr none none
    let s := writePage s cur { (← readPage s cur) with next_page := some np }
    let s := writePage s np { (← readPage s np) with prev_page := some cur }
    buildRunAux s np (nextAddr + PAGE_SIZE) k

/-- Module-level `add_n_free_pages`: build a contiguous linked run of
`count` pages starting at `addr` and splice it into the list. -/
def add_n_free_pages (s : FreePageList) (addr count : Nat) :
    Except KPanic FreePageList := do
  if addr % PAGE_SIZE ≠ 0 then throw .unalignedAddress
  if count = 0 then throw .zeroCount
  let (s, head) ← newFreePage s addr none none
  let (s, lastP) ← buildRunAux s head (addr + PAGE_SIZE) (count - 1)
  insert_page_list s head lastP

/-- Clearing loop of `remove_n_free_pages`: walk `next` pointers from the
removed run's head, zeroing each record. -/
def clearRunAux : FreePageList → Option Nat → Nat → Except KPanic FreePageList
  | s, none, _ => pure s
  | _, some _, 0 => throw .unreachableCode
  | s, some p, fuel + 1 => do
    let pg ← readPage s p
    let nxt := pg.next_page
    let s := writePage s p ⟨0, none, none⟩
    clearRunAux s nxt fuel

/-- Module-level `remove_n_free_pages`. -/
def remove_n_free_pages (s : FreePageList) (count : Nat) :
    Except KPanic (FreePageList × Option Nat) := do
  let (s, firstO) ← remove_page_list s count
  match firstO with
  | some p => do
    let addr := (← readPage s p).address
    let s ← clearRunAux s (some p) (s.heap.length + 1)
    pure (s, some addr)
  | none => pure (s, none)

/-- Insert a page below the current head: start from the empty list over a
128 MiB RAM window, add page 0x80201000, then add page 0x80200000. -/
def c1_state : Except KPanic FreePageList := do
  let s ← add_free_page (FreePageList.new 0x88000000) 0x80201000
  add_free_page s 0x80200000

/-- Insert one page and pop it again. -/
def c2_pop : Except KPanic (FreePageList × Option Nat) := do
  let s ← add_free_page (FreePageList.new 0x88000000) 0x80200000
  remove_free_page s

/-- After the pop of the only page, perform one more public operation. -/
def c2_after_insert : Except KPanic FreePageList := do
  let (s, _) ← c2_pop
  add_free_page s 0x80201000

/-- Insert a contiguous two-page run below the current head. -/
def c3_state : Except KPanic FreePageList := do
  let s ← add_free_page (FreePageList.new 0x88000000) 0x80202000
  add_n_free_pages s 0x80200000 2

/-- C1.  The claim says `insert` places a page in sorted position, and in
particular that inserting a page whose address is lower than the current
head succeeds and makes it the new head.  In the code this path aborts:
`insert_page` routes the page to `add_free_page_to_beginning`, whose
assertion demands the new page's address be GREATER than the head's — the
opposite of the condition under which the function is reached (its own doc
comment says the new page must be logically before the first page).
Inserting 0x80200000 under head 0x80201000 hits that assertion. -/
theorem insert_below_head_aborts :
    c1_state = .error .newPageNotGreaterThanFirst := by rfl

/-- C2.  The claim says the list invariants hold after every public call,
including popping the last element, after which the list is again a valid
empty list.  In the code `remove_page` only advances `first_page`: popping
the only page leaves `last_page` still pointing at the removed node, so the
very next public operation trips the consistency assertion inside
`is_empty` ("Inconsistent state of free page list").  Shown here: after
insert(0x80200000); pop_one() the state has `first_page = none` but
`last_page = some 0x80200000`, and a following insert aborts. -/
theorem pop_last_breaks_invariants :
    (c2_pop.toOption.map (fun p => (p.1.first_page, p.1.last_page, p.2))
        = some (none, some 0x80200000, some 0x80200000))
    ∧ c2_after_insert = .error .inconsistentListState := by
  exact ⟨rfl, rfl⟩

/-- C3.  The claim says `insert_run` succeeds including when the run belongs
before the current head.  In the code that path always aborts:
`insert_page_list` links the run in front of the old head (giving the old
head a `prev_page` pointer) and then immediately asserts that the old head
has no `prev_page`.  Inserting the run [0x80200000, 0x80201000] below head
0x80202000 hits that assertion. -/
theorem insert_run_before_head_aborts :
    c3_state = .error .firstPageHasPrev := by rfl

end FPL

namespace SV39

/-- How a mapped page's memory is managed (`PageManagement` in
page_table_entry.rs).  Stored in the two PTE_RSW software bits of an entry;
the decode is the bijection 0 ↔ Manual, 1 ↔ Automatic, 2 ↔ CopyOnWrite,
3 ↔ CowOwner (the source's final panic arm is unreachable for a two-bit
field). -/
inductive PageManagement where
  | Manual
  | Automatic
  | CopyOnWrite
  | CowOwner
deriving DecidableEq

/-- A 64-bit SV39 page-table entry (`PageTableEntry`), rendered field by
field.  The source's masks are disjoint and cover the word: bit 0 V, bit 1
R, bit 2 W, bit 3 X, bit 4 U, bit 5 G, bit 6 A, bit 7 D, bits 8-9 RSW
(carried here decoded as `management`), bits 10-53 PPN (carried as the
44-bit number `ppn`), bits 54-63 reserved (carried as the number
`reserved`). -/
structure PTE where
  valid : Bool
  readable : Bool
  writable : Bool
  executable : Bool
  user : Bool
  global : Bool
  accessed : Bool
  dirty : Bool
  management : PageManagement
  ppn : Nat
  reserved : Nat
deriving DecidableEq

/-- The all-zero cell (`PageTableEntry::new_invalid`, and the value
`set_invalid` leaves behind). -/
def PTE.zero : PTE :=
  ⟨false, false, false, false, false, false, false, false, .Manual, 0, 0⟩

/-- `PageTableEntry::is_valid`: V set and no reserved bits set. -/
def PTE.is_valid (e : PTE) : Bool := e.valid && e.reserved == 0

/-- `PageTableEntry::is_page_table_ptr`: V set and none of R/W/X set (the
reserved bits are not consulted here, exactly as in the source). -/
def PTE.is_page_table_ptr (e : PTE) : Bool :=
  e.valid && !(e.readable || e.writable || e.executable)

/-- `PageTableEntry::is_leaf`. -/
def PTE.is_leaf (e : PTE) : Bool := e.is_valid && !e.is_page_table_ptr

/-- Panics and `Result` errors of the SV39 page-table code.  The `va...` /
`pa...` / `already...` / `vpn...` / `notLeaf` constructors stand for the
tagged `&'static str` errors returned by map/unmap/translate; the others
stand for panic sites; `brokenModel` marks a place where the source would
chase a page-table pointer into memory the functional tree does not own
(impossible for well-formed tables). -/
inductive PTErr where
  /-- "A virtual address must not have reserved bits set."
  (assert in VirtualAddress::new). -/
  | vaReservedBits
  /-- "Cannot set a page table entry as valid when it is already valid."
  (assert in set_valid). -/
  | setValidOnValid
  /-- "Physical address ... is not aligned to a page boundary."
  (assert in set_physical_address). -/
  | unalignedPhysicalAddress
  /-- "Physical address ... is too large for Sv39."
  (assert in set_physical_address). -/
  | ppnTooLarge
  /-- "Cannot get physical address from a page table entry that is a
  pointer to another page table." (assert in get_physical_address). -/
  | physicalFromTablePtr
  /-- An entry's table pointer has no attached child in the model. -/
  | brokenModel
  /-- Err "Virtual address must be page aligned." (map_page / unmap_page). -/
  | vaMustBeAligned
  /-- Err "Physical address must be page aligned and non-zero." (map_page). -/
  | paMustBeAlignedNonzero
  /-- Err "The page has already been mapped." (map_page). -/
  | alreadyMapped
  /-- Err "The entry at VPN[2] must be a page table pointer." -/
  | vpn2Mistyped
  /-- Err "The entry at VPN[1] must be a page table pointer." -/
  | vpn1Mistyped
  /-- Err "The entry at VPN[2] is not a valid page table pointer."
  (look_up_page_entry, the read-only walk). -/
  | vpn2Invalid
  /-- Err "The entry at VPN[1] is not a valid page table pointer."
  (look_up_page_entry, the read-only walk). -/
  | vpn1Invalid
  /-- Err "The page table entry is not a leaf entry, it is a page table
  pointer." (get_physical_address on the table). -/
  | notLeaf
deriving DecidableEq

/-- `PageTableEntry::set_valid`. -/
def PTE.set_valid (e : PTE) : Except PTErr PTE :=
  if e.is_valid then .error .setValidOnValid
  else .ok { e with valid := true, reserved := 0 }

/-- `PageTableEntry::clear_accessed`. -/
def PTE.clear_accessed (e : PTE) : PTE := { e with accessed := false }

/-- `PageTableEntry::clear_dirty`. -/
def PTE.clear_dirty (e : PTE) : PTE := { e with dirty := false }

/-- `PageTableEntry::set_global`. -/
def PTE.set_global (e : PTE) (b : Bool) : PTE := { e with global := b }

/-- `PageTableEntry::set_user_accessible`. -/
def PTE.set_user_accessible (e : PTE) (b : Bool) : PTE := { e with user := b }

/-- `PageTableEntry::set_readable`. -/
def PTE.set_readable (e : PTE) (b : Bool) : PTE := { e with readable := b }

/-- `PageTableEntry::set_writable`. -/
def PTE.set_writable (e : PTE) (b : Bool) : PTE := { e with writable := b }

/-- `PageTableEntry::set_executable`. -/
def PTE.set_executable (e : PTE) (b : Bool) : PTE := { e with executable := b }

/-- `PageTableEntry::set_page_management` (writes the two RSW bits). -/
def PTE.set_page_management (e : PTE) (m : PageManagement) : PTE :=
  { e with management := m }

/-- `PageTableEntry::get_page_management` (reads the two RSW bits). -/
def PTE.get_page_management (e : PTE) : PageManagement := e.management

/-- `PageTableEntry::set_physical_address`: asserts page alignment and that
the PPN (`pa >> 12`, here `pa / 4096` for aligned `pa`) fits in 44 bits,
then stores it. -/
def PTE.set_physical_address (e : PTE) (pa : Nat) : Except PTErr PTE :=
  if pa % PAGE_SIZE ≠ 0 then .error .unalignedPhysicalAddress
  else if ¬ (pa / 4096 ≤ 0x3FFFFFFFFFF) then .error .ppnTooLarge
  else .ok { e with ppn := pa / 4096 }

/-- `PageTableEntry::get_physical_address`: asserts the entry is not a table
pointer, then returns `ppn << 12`. -/
def PTE.get_physical_address (e : PTE) : Except PTErr Nat :=
  if e.is_page_table_ptr then .error .physicalFromTablePtr
  else .ok (e.ppn * 4096)

/-- A leaf-level table: 512 cells (`PageTable`, level 0). -/
def Table0 := Fin 512 → PTE

/-- A level-1 entry: its 64-bit cell plus, when the cell is a table
pointer, the child table the encoded PPN references.  The PPN of a table
pointer is the machine address of the child page, which the functional
model carries as the attached child itself. -/
structure Ent1 where
  pte : PTE
  child : Option Table0

/-- A mid-level table (`PageTable`, level 1). -/
def Table1 := Fin 512 → Ent1

/-- A root-level entry, analogous to `Ent1`. -/
structure Ent2 where
  pte : PTE
  child : Option Table1

/-- A root table (`PageTable`, level 2). -/
def Table2 := Fin 512 → Ent2

/-- A zeroed leaf table (what `PageTable::from_physical_address` produces). -/
def emptyTable0 : Table0 := fun _ => PTE.zero

/-- A zeroed level-1 entry. -/
def zeroEnt1 : Ent1 := ⟨PTE.zero, none⟩

/-- A zeroed mid-level table. -/
def emptyTable1 : Table1 := fun _ => zeroEnt1

/-- A zeroed root entry. -/
def zeroEnt2 : Ent2 := ⟨PTE.zero, none⟩

/-- A zeroed root table. -/
def PageTable.empty : Table2 := fun _ => zeroEnt2

/-- The cell value `PageTableEntry::new_page_table_ptr` writes: `new()`
gives V set, `set_table_address` clears the reserved bits and encodes the
fresh child's PPN (abstracted here, the child being attached directly). -/
def tablePtrPTE : PTE := { PTE.zero with valid := true }

/-- `VirtualAddress::new`: asserts that bits 39-63 (PTA_RESERVED) are clear,
i.e. that the address is below 2^39. -/
def mkVA (a : Nat) : Except PTErr Nat :=
  if a < 2 ^ 39 then .ok a else .error .vaReservedBits

/-- `VirtualAddress::get_vpn(2)`: bits 30-38 ((a & PTA_VPN_2) >> 30). -/
def vpn2 (a : Nat) : Fin 512 := ⟨a / 2 ^ 30 % 512, Nat.mod_lt _ (by norm_num)⟩

/-- `VirtualAddress::get_vpn(1)`: bits 21-29 ((a & PTA_VPN_1) >> 21). -/
def vpn1 (a : Nat) : Fin 512 := ⟨a / 2 ^ 21 % 512, Nat.mod_lt _ (by norm_num)⟩

/-- `VirtualAddress::get_vpn(0)`: bits 12-20 ((a & PTA_VPN_0) >> 12). -/
def vpn0 (a : Nat) : Fin 512 := ⟨a / 2 ^ 12 % 512, Nat.mod_lt _ (by norm_num)⟩

/-- `VirtualAddress::get_offset`: bits 0-11. -/
def pageOffset (a : Nat) : Nat := a % PAGE_SIZE

/-- Read the level-1 entry on the path `i2, i1` (a memory read through the
level-2 entry's table pointer). -/
def getEnt1 (t : Table2) (i2 i1 : Fin 512) : Option Ent1 :=
  match (t i2).child with
  | some t1 => some (t1 i1)
  | none => none

/-- Read the leaf cell on the path `i2, i1, i0`. -/
def getCell (t : Table2) (i2 i1 i0 : Fin 512) : Option PTE :=
  match (t i2).child with
  | some t1 =>
    match (t1 i1).child with
    | some t0 => some (t0 i0)
    | none => none
  | none => none

/-- Write the level-1 entry on the path `i2, i1`.  Leaves the tree unchanged
when the path is absent; callers establish the path first and guard reads
with `brokenModel`. -/
def updEnt1 (t : Table2) (i2 i1 : Fin 512) (e : Ent1) : Table2 :=
  match (t i2).child with
  | some t1 => Function.update t i2 ⟨(t i2).pte, some (Function.update t1 i1 e)⟩
  | none => t

/-- Write the leaf cell on the path `i2, i1, i0` (same caveat as
`updEnt1`). -/
def setCell (t : Table2) (i2 i1 i0 : Fin 512) (v : PTE) : Table2 :=
  match (t i2).child with
  | none => t
  | some t1 =>
    match (t1 i1).child with
    | none => t
    | some t0 =>
      Function.update t i2
        ⟨(t i2).pte, some (Function.update t1 i1 ⟨(t1 i1).pte, some (Function.update t0 i0 v)⟩)⟩

/-- `PageTable::look_up_page_entry_mut`: the walk used by map_page and
unmap_page.  An Invalid intermediate entry is upgraded in place to a fresh
table pointer (`new_page_table_ptr`, which allocates and zeroes a page); a
valid intermediate that is not a table pointer is an error. -/
def look_up_page_entry_mut (t : Table2) (va : Nat) :
    Except PTErr (Table2 × Fin 512 × Fin 512 × Fin 512) := do
  let i2 := vpn2 va
  let i1 := vpn1 va
  let i0 := vpn0 va
  let t ←
    if (t i2).pte.is_valid then
      if ¬ (t i2).pte.is_page_table_ptr then throw .vpn2Mistyped
      else match (t i2).child with
        | some _ => pure t
        | none => throw .brokenModel
    else
      pure (Function.update t i2 ⟨tablePtrPTE, some emptyTable1⟩)
  let e1 ← match getEnt1 t i2 i1 with
    | some e => pure e
    | none => throw .brokenModel
  let t ←
    if e1.pte.is_valid then
      if ¬ e1.pte.is_page_table_ptr then throw .vpn1Mistyped
      else match e1.child with
        | some _ => pure t
        | none => throw .brokenModel
    else
      pure (updEnt1 t i2 i1 ⟨tablePtrPTE, some emptyTable0⟩)
  pure (t, i2, i1, i0)

/-- `PageTable::look_up_page_entry`: the read-only walk used by
get_physical_address; an Invalid intermediate is an error here. -/
def look_up_page_entry (t : Table2) (va : Nat) : Except PTErr PTE := do
  let i2 := vpn2 va
  let i1 := vpn1 va
  let i0 := vpn0 va
  let e2 := t i2
  if e2.pte.is_valid then
    if ¬ e2.pte.is_page_table_ptr then throw .vpn2Mistyped
    else match e2.child with
      | some t1 => do
        let e1 := t1 i1
        if e1.pte.is_valid then
          if ¬ e1.pte.is_page_table_ptr then throw .vpn1Mistyped
          else match e1.child with
            | some t0 => pure (t0 i0)
            | none => throw .brokenModel
        else throw .vpn1Invalid
      | none => throw .brokenModel
  else throw .vpn2Invalid

/-- Permission flags for a mapping (`Permissions` in permissions.rs). -/
structure Permissions where
  readable : Bool
  writable : Bool
  executable : Bool
  user_accessible : Bool
  globally_accessible : Bool
deriving DecidableEq

/-- `PageTableEntry::set_invalid` restricted to a leaf-level cell (one that
owns no child table in the model): an Automatic leaf with nonzero PPN
returns its page to the free list; the cell is zeroed.  A table-pointer
typed cell at leaf level would make the source drop whatever memory its PPN
names; the tree model reports that as `brokenModel`. -/
def setInvalidCell (c : PTE) : Except PTErr (PTE × List Nat) :=
  if c.is_page_table_ptr then .error .brokenModel
  else if c.is_leaf ∧ c.management = .Automatic ∧ c.ppn * 4096 ≠ 0 then
    .ok (PTE.zero, [c.ppn * 4096])
  else .ok (PTE.zero, [])

/-- `PageTable::map_page`. -/
def map_page (t : Table2) (virtual_address physical_address : Nat)
    (perms : Permissions) (mgmt : PageManagement) : Except PTErr Table2 := do
  let va ← mkVA virtual_address
  if pageOffset va ≠ 0 then throw .vaMustBeAligned
  if physical_address % PAGE_SIZE ≠ 0 ∨ physical_address = 0 then
    throw .paMustBeAlignedNonzero
  let (t, i2, i1, i0) ← look_up_page_entry_mut t va
  let c ← match getCell t i2 i1 i0 with
    | some c => pure c
    | none => throw .brokenModel
  if c.is_valid then throw .alreadyMapped
  let c ← c.set_valid
  let c := c.clear_accessed.clear_dirty
  let c := (c.set_global perms.globally_accessible).set_user_accessible perms.user_accessible
  let c := ((c.set_readable perms.readable).set_writable perms.writable).set_executable
    perms.executable
  let c := c.set_page_management mgmt
  let c ← c.set_physical_address physical_address
  pure (setCell t i2 i1 i0 c)

/-- `PageTable::unmap_page`.  Note that it walks with
`look_up_page_entry_mut`, the walk that creates missing intermediate
tables.  The pages that `set_invalid` pushes back to the free list are
computed (second component of `setInvalidCell`) and discarded here, as the
free list is outside this structure. -/
def unmap_page (t : Table2) (virtual_address : Nat) :
    Except PTErr (Table2 × Option Nat) := do
  let va ← mkVA virtual_address
  if pageOffset va ≠ 0 then throw .vaMustBeAligned
  let (t, i2, i1, i0) ← look_up_page_entry_mut t va
  let c ← match getCell t i2 i1 i0 with
    | some c => pure c
    | none => throw .brokenModel
  let freed ← match c.get_page_management with
    | .Manual => do pure (some (← c.get_physical_address))
    | .Automatic => pure none
    | .CopyOnWrite => pure none
    | .CowOwner => pure none
  let (c0, _toFreeList) ← setInvalidCell c
  pure (setCell t i2 i1 i0 c0, freed)

/-- `PageTable::get_physical_address` (translate). -/
def PageTable.get_physical_address (t : Table2) (virtual_address : Nat) :
    Except PTErr Nat := do
  let va ← mkVA virtual_address
  let e ← look_up_page_entry t va
  if ¬ e.is_leaf then throw .notLeaf
  let base ← PTE.get_physical_address e
  pure (base + pageOffset va)

/-- Run of `unmap_page` on the empty root table at virtual address 0x1000
(C5's failing input: the VPN[2] intermediate entry is Invalid). -/
def c5_run : Except PTErr (Table2 × Option Nat) := unmap_page PageTable.empty 0x1000

/-- C5.  The claim says that when the walk meets an Invalid intermediate
entry, unmap returns a tagged error and leaves the page-table state
unchanged.  In the code `unmap_page` walks with `look_up_page_entry_mut`,
which upgrades Invalid intermediates to fresh table pointers (allocating a
page each time): on the empty root, `unmap_page(0x1000)` returns
`Ok(Some(0))` — no error, and a claimed freed frame at physical address 0 —
and afterwards the VPN[2] entry is a valid table pointer where it was zero
before, i.e. the state changed and two intermediate tables were created. -/
theorem unmap_invalid_intermediate_allocates :
    (c5_run.toOption.map (fun p => p.2) = some (some 0))
    ∧ (c5_run.toOption.map (fun p => ((p.1 0).pte.valid, (p.1 0).child.isSome))
        = some (true, true))
    ∧ ((PageTable.empty 0).pte.valid, (PageTable.empty 0).child.isSome)
        = (false, false) :=
  ⟨rfl, rfl, rfl⟩

/-- The all-false permission set. -/
def noPerms : Permissions := ⟨false, false, false, false, false⟩

/-- Mapping 0x1000 → 0x2000 on the empty root with no R/W/X permission. -/
def c4_noperm_map : Except PTErr Table2 :=
  map_page PageTable.empty 0x1000 0x2000 noPerms .Manual

/-- C4 counterexample.  The claim quantifies over every `perms`; with all of
R/W/X clear, `map` succeeds but writes a leaf whose V=1, R=W=X=0 encoding is
exactly a table pointer in SV39, so the following `translate(vaddr)` does
not return `paddr` — it fails with the not-a-leaf error. -/
theorem map_no_perms_translate_fails :
    (c4_noperm_map.toOption.isSome = true)
    ∧ (c4_noperm_map.toOption.map (fun t => PageTable.get_physical_address t 0x1000)
        = some (.error .notLeaf)) :=
  ⟨rfl, rfl⟩

/-- A well-formed level-1 entry: either all zero, or a fresh-style table
pointer with its child attached.  These are the only level-1 entry shapes
the `PageTable` API ever creates. -/
def WFe1 (e : Ent1) : Prop :=
  e = zeroEnt1 ∨ (e.pte = tablePtrPTE ∧ ∃ t0, e.child = some t0)

/-- All entries of a mid-level table are well formed. -/
def WF1 (t1 : Table1) : Prop := ∀ i, WFe1 (t1 i)

/-- A well-formed root entry. -/
def WFe2 (e : Ent2) : Prop :=
  e = zeroEnt2 ∨ (e.pte = tablePtrPTE ∧ ∃ t1, e.child = some t1 ∧ WF1 t1)

/-- A well-formed root table: every intermediate entry is Invalid or a table
pointer with its child attached (leaf cells are unconstrained). -/
def WF (t : Table2) : Prop := ∀ i, WFe2 (t i)

/-- The leaf cell a virtual address resolves to, if its intermediate path
exists. -/
def cellAt (t : Table2) (va : Nat) : Option PTE :=
  getCell t (vpn2 va) (vpn1 va) (vpn0 va)

/-- `va` has no mapping in `t`: either the intermediate path is missing or
the leaf cell is not valid. -/
def unmappedAt (t : Table2) (va : Nat) : Prop :=
  match cellAt t va with
  | none => True
  | some c => c.is_valid = false

/-- The path `i2, i1, i0` resolves through valid table pointers to the leaf
cell `c`. -/
def pathOk (t : Table2) (i2 i1 i0 : Fin 512) (c : PTE) : Prop :=
  ∃ t1 t0, (t i2).pte = tablePtrPTE ∧ (t i2).child = some t1
    ∧ (t1 i1).pte = tablePtrPTE ∧ (t1 i1).child = some t0 ∧ t0 i0 = c

lemma except_pure_eq {ε α : Type} (a : α) : (pure a : Except ε α) = .ok a := rfl

lemma except_throw_eq {ε α : Type} (e : ε) : (throw e : Except ε α) = .error e := rfl

lemma except_bind_ok {ε α β : Type} (a : α) (f : α → Except ε β) :
    (Except.ok a : Except ε α) >>= f = f a := rfl

lemma except_bind_error {ε α β : Type} (e : ε) (f : α → Except ε β) :
    (Except.error e : Except ε α) >>= f = .error e := rfl

lemma tablePtrPTE_is_valid : tablePtrPTE.is_valid = true := rfl

lemma tablePtrPTE_is_ptr : tablePtrPTE.is_page_table_ptr = true := rfl

lemma zero_is_valid : PTE.zero.is_valid = false := rfl

lemma getCell_of_pathOk {t : Table2} {i2 i1 i0 : Fin 512} {c : PTE}
    (h : pathOk t i2 i1 i0 c) : getCell t i2 i1 i0 = some c := by
  obtain ⟨t1, t0, _, h2c, _, h1c, rfl⟩ := h
  simp [getCell, h2c, h1c]

lemma lookup_mut_of_pathOk {t : Table2} {i2 i1 i0 : Fin 512} {c : PTE}
    (h : pathOk t i2 i1 i0 c) (va : Nat)
    (h2 : vpn2 va = i2) (h1 : vpn1 va = i1) (h0 : vpn0 va = i0) :
    look_up_page_entry_mut t va = .ok (t, i2, i1, i0) := by
  obtain ⟨t1, t0, h2p, h2c, h1p, h1c, _⟩ := h
  simp [look_up_page_entry_mut, h2, h1, h0, h2p, h2c, getEnt1, h1p, h1c,
    tablePtrPTE_is_valid, tablePtrPTE_is_ptr, except_pure_eq, except_throw_eq, except_bind_ok, except_bind_error]

lemma lookup_ro_of_pathOk {t : Table2} {i2 i1 i0 : Fin 512} {c : PTE}
    (h : pathOk t i2 i1 i0 c) (va : Nat)
    (h2 : vpn2 va = i2) (h1 : vpn1 va = i1) (h0 : vpn0 va = i0) :
    look_up_page_entry t va = .ok c := by
  obtain ⟨t1, t0, h2p, h2c, h1p, h1c, rfl⟩ := h
  simp [look_up_page_entry, h2, h1, h0, h2p, h2c, h1p, h1c,
    tablePtrPTE_is_valid, tablePtrPTE_is_ptr, except_pure_eq, except_throw_eq, except_bind_ok, except_bind_error]

lemma setCell_pathOk {t : Table2} {i2 i1 i0 : Fin 512} {c : PTE}
    (h : pathOk t i2 i1 i0 c) (v : PTE) :
    pathOk (setCell t i2 i1 i0 v) i2 i1 i0 v := by
  obtain ⟨t1, t0, h2p, h2c, h1p, h1c, _⟩ := h
  refine ⟨Function.update t1 i1 ⟨(t1 i1).pte, some (Function.update t0 i0 v)⟩,
    Function.update t0 i0 v, ?_, ?_, ?_, ?_, ?_⟩ <;>
    simp [setCell, h2c, h1c, h2p, h1p]

lemma lookup_mut_wf (t : Table2) (va : Nat) (hwf : WF t) :
    ∃ tA c, look_up_page_entry_mut t va = .ok (tA, vpn2 va, vpn1 va, vpn0 va)
      ∧ pathOk tA (vpn2 va) (vpn1 va) (vpn0 va) c
      ∧ (cellAt t va = some c ∨ (cellAt t va = none ∧ c = PTE.zero)) := by
  rcases hwf (vpn2 va) with h2 | ⟨h2p, t1, h2c, hwf1⟩
  · -- VPN[2] entry invalid: both intermediate tables are freshly allocated
    refine ⟨Function.update t (vpn2 va)
        ⟨tablePtrPTE,
         some (Function.update emptyTable1 (vpn1 va) ⟨tablePtrPTE, some emptyTable0⟩)⟩,
      PTE.zero, ?_, ?_, ?_⟩
    · simp [look_up_page_entry_mut, h2, zeroEnt2, zero_is_valid, getEnt1,
        emptyTable1, zeroEnt1, updEnt1, tablePtrPTE_is_valid, except_pure_eq, except_throw_eq, except_bind_ok, except_bind_error]
    · exact ⟨Function.update emptyTable1 (vpn1 va) ⟨tablePtrPTE, some emptyTable0⟩,
        emptyTable0, by simp, by simp, by simp, by simp, rfl⟩
    · right
      constructor
      · simp [cellAt, getCell, h2, zeroEnt2]
      · rfl
  · rcases hwf1 (vpn1 va) with h1 | ⟨h1p, t0, h1c⟩
    · -- VPN[1] entry invalid: the leaf table is freshly allocated
      refine ⟨Function.update t (vpn2 va)
          ⟨(t (vpn2 va)).pte,
           some (Function.update t1 (vpn1 va) ⟨tablePtrPTE, some emptyTable0⟩)⟩,
        PTE.zero, ?_, ?_, ?_⟩
      · simp [look_up_page_entry_mut, h2p, tablePtrPTE_is_valid, tablePtrPTE_is_ptr,
          h2c, getEnt1, h1, zeroEnt1, zero_is_valid, updEnt1, except_pure_eq, except_throw_eq, except_bind_ok, except_bind_error]
      · exact ⟨Function.update t1 (vpn1 va) ⟨tablePtrPTE, some emptyTable0⟩,
          emptyTable0, by simp [h2p], by simp, by simp, by simp, rfl⟩
      · right
        constructor
        · simp [cellAt, getCell, h2c, h1, zeroEnt1]
        · rfl
    · -- both intermediates already valid table pointers: no mutation
      refine ⟨t, t0 (vpn0 va), ?_, ⟨t1, t0, h2p, h2c, h1p, h1c, rfl⟩, ?_⟩
      · simp [look_up_page_entry_mut, h2p, tablePtrPTE_is_valid, tablePtrPTE_is_ptr,
          h2c, getEnt1, h1p, h1c, except_pure_eq, except_throw_eq, except_bind_ok, except_bind_error]
      · left
        simp [cellAt, getCell, h2c, h1c]

lemma vpn_decompose (va off : Nat) (hal : va % PAGE_SIZE = 0) (hoff : off < PAGE_SIZE) :
    vpn2 (va + off) = vpn2 va ∧ vpn1 (va + off) = vpn1 va ∧ vpn0 (va + off) = vpn0 va
      ∧ pageOffset (va + off) = off := by
  simp only [PAGE_SIZE] at hal hoff
  refine ⟨?_, ?_, ?_, ?_⟩
  · apply Fin.ext
    show (va + off) / 2 ^ 30 % 512 = va / 2 ^ 30 % 512
    omega
  · apply Fin.ext
    show (va + off) / 2 ^ 21 % 512 = va / 2 ^ 21 % 512
    omega
  · apply Fin.ext
    show (va + off) / 2 ^ 12 % 512 = va / 2 ^ 12 % 512
    omega
  · show (va + off) % 4096 = off
    omega

/-- The leaf cell that `map_page`'s setter chain produces: set_valid, clear
accessed/dirty, write G/U/R/W/X from the permissions, write the management
bits, store the PPN.  Every field of the previous (invalid) cell is
overwritten. -/
def mappedLeaf (perms : Permissions) (mgmt : PageManagement) (pa : Nat) : PTE :=
  ⟨true, perms.readable, perms.writable, perms.executable,
   perms.user_accessible, perms.globally_accessible, false, false, mgmt, pa / 4096, 0⟩

lemma mappedLeaf_is_valid {perms : Permissions} {mgmt : PageManagement} {pa : Nat} :
    (mappedLeaf perms mgmt pa).is_valid = true := rfl

lemma mappedLeaf_management {perms : Permissions} {mgmt : PageManagement} {pa : Nat} :
    (mappedLeaf perms mgmt pa).management = mgmt := rfl

lemma mappedLeaf_ppn {perms : Permissions} {mgmt : PageManagement} {pa : Nat} :
    (mappedLeaf perms mgmt pa).ppn = pa / 4096 := rfl

lemma mappedLeaf_not_ptr {perms : Permissions} {mgmt : PageManagement} {pa : Nat}
    (h : perms.readable = true ∨ perms.writable = true ∨ perms.executable = true) :
    (mappedLeaf perms mgmt pa).is_page_table_ptr = false := by
  rcases h with h | h | h <;> simp [mappedLeaf, PTE.is_page_table_ptr, h]

lemma mappedLeaf_is_leaf {perms : Permissions} {mgmt : PageManagement} {pa : Nat}
    (h : perms.readable = true ∨ perms.writable = true ∨ perms.executable = true) :
    (mappedLeaf perms mgmt pa).is_leaf = true := by
  simp [PTE.is_leaf, mappedLeaf_is_valid, mappedLeaf_not_ptr h]

/-- C4 (amended).  On any well-formed SV39 page table (intermediate entries
Invalid or table pointers, as the `PageTable` API maintains) where `vaddr`
is unmapped, with SV39-representable page-aligned addresses, nonzero
`paddr`, and a permission set carrying at least one of R/W/X: `map`
succeeds; `translate(vaddr + off)` then returns `paddr + off` for every
`off < PAGE_SIZE`; a second `map` at the same `vaddr` fails with the
already-mapped error; and after `unmap(vaddr)` (which reports the frame for
Manual mappings) `translate(vaddr)` fails with the not-mapped (non-leaf)
error. -/
theorem map_translate_unmap_roundtrip
    (t : Table2) (va pa : Nat) (perms : Permissions) (mgmt : PageManagement)
    (hwf : WF t) (hun : unmappedAt t va)
    (hva : va < 2 ^ 39) (hvaal : va % PAGE_SIZE = 0)
    (hpaal : pa % PAGE_SIZE = 0) (hpa0 : pa ≠ 0) (hpafit : pa < 2 ^ 54)
    (hperm : perms.readable = true ∨ perms.writable = true ∨ perms.executable = true) :
    ∃ t', map_page t va pa perms mgmt = .ok t'
      ∧ (∀ off, off < PAGE_SIZE →
          PageTable.get_physical_address t' (va + off) = .ok (pa + off))
      ∧ (∀ pa2 perms2 mgmt2, pa2 % PAGE_SIZE = 0 → pa2 ≠ 0 →
          map_page t' va pa2 perms2 mgmt2 = .error .alreadyMapped)
      ∧ ∃ t'', unmap_page t' va = .ok (t'', if mgmt = .Manual then some pa else none)
          ∧ PageTable.get_physical_address t'' va = .error .notLeaf := by
  obtain ⟨tA, c, hlk, hpath, hcell⟩ := lookup_mut_wf t va hwf
  have hcinv : c.is_valid = false := by
    rcases hcell with h | ⟨h, rfl⟩
    · simpa [unmappedAt, h] using hun
    · exact zero_is_valid
  have hoff0 : pageOffset va = 0 := hvaal
  have hva' : va < 549755813888 := by omega
  have hdvd : 4096 ∣ pa := by
    have := hpaal; simp only [PAGE_SIZE] at this; exact Nat.dvd_of_mod_eq_zero this
  have hppnback : pa / 4096 * 4096 = pa := Nat.div_mul_cancel hdvd
  have hfit : pa / 4096 ≤ 0x3FFFFFFFFFF := by omega
  have hmapped : map_page t va pa perms mgmt
      = .ok (setCell tA (vpn2 va) (vpn1 va) (vpn0 va) (mappedLeaf perms mgmt pa)) := by
    obtain ⟨cv, cr, cw, cx, cu, cg, ca, cd, cm, cp, cres⟩ := c
    simp [map_page, mkVA, hva, hva', hoff0, hpaal, hpa0, hlk, getCell_of_pathOk hpath,
      hcinv, PTE.set_valid, PTE.clear_accessed, PTE.clear_dirty, PTE.set_global,
      PTE.set_user_accessible, PTE.set_readable, PTE.set_writable, PTE.set_executable,
      PTE.set_page_management, PTE.set_physical_address, hfit, mappedLeaf,
      except_pure_eq, except_throw_eq, except_bind_ok, except_bind_error]
  have hpath' := setCell_pathOk hpath (mappedLeaf perms mgmt pa)
  refine ⟨_, hmapped, ?_, ?_, ?_⟩
  · -- translate of va + off
    intro off hoffsz
    obtain ⟨e2, e1, e0, eo⟩ := vpn_decompose va off hvaal hoffsz
    have hro := lookup_ro_of_pathOk hpath' (va + off) e2 e1 e0
    have hvaoff : va + off < 549755813888 := by
      simp only [PAGE_SIZE] at hvaal hoffsz; omega
    simp [PageTable.get_physical_address, mkVA, hvaoff, hro, mappedLeaf_is_leaf hperm,
      PTE.get_physical_address, mappedLeaf_not_ptr hperm, eo,
      except_pure_eq, except_throw_eq, except_bind_ok, except_bind_error]
    simp [mappedLeaf, hppnback]
  · -- second map fails with the already-mapped error
    intro pa2 perms2 mgmt2 h2al h2nz
    have hmut := lookup_mut_of_pathOk hpath' va rfl rfl rfl
    simp [map_page, mkVA, hva, hva', hoff0, h2al, h2nz, hmut, getCell_of_pathOk hpath',
      mappedLeaf_is_valid, except_pure_eq, except_throw_eq, except_bind_ok,
      except_bind_error]
  · -- unmap, then translate fails with the non-leaf (not mapped) error
    have hmut := lookup_mut_of_pathOk hpath' va rfl rfl rfl
    refine ⟨setCell (setCell tA (vpn2 va) (vpn1 va) (vpn0 va) (mappedLeaf perms mgmt pa))
      (vpn2 va) (vpn1 va) (vpn0 va) PTE.zero, ?_, ?_⟩
    · have hpa4096 : pa % 4096 = 0 := by simpa [PAGE_SIZE] using hpaal
      have hppn0 : pa / 4096 ≠ 0 := by omega
      cases mgmt <;>
        simp [unmap_page, mkVA, hva, hva', hoff0, hmut, getCell_of_pathOk hpath',
          PTE.get_page_management, PTE.get_physical_address,
          mappedLeaf_not_ptr hperm, setInvalidCell, mappedLeaf_is_leaf hperm,
          mappedLeaf_management, mappedLeaf_ppn, hppnback, hpa0, hppn0,
          except_pure_eq, except_throw_eq, except_bind_ok, except_bind_error]
    · have hpath'' := setCell_pathOk hpath' PTE.zero
      have hro := lookup_ro_of_pathOk hpath'' va rfl rfl rfl
      simp [PageTable.get_physical_address, mkVA, hva, hva', hro, PTE.is_leaf, zero_is_valid,
        except_pure_eq, except_throw_eq, except_bind_ok, except_bind_error]

/-- Witness for the C4 theorem: the empty root, va = 0x1000, pa = 0x2000, a
readable Manual mapping. -/
theorem map_translate_unmap_roundtrip_witness :
    ∃ t', map_page PageTable.empty 0x1000 0x2000
        ⟨true, false, false, false, false⟩ .Manual = .ok t'
      ∧ (∀ off, off < PAGE_SIZE →
          PageTable.get_physical_address t' (0x1000 + off) = .ok (0x2000 + off))
      ∧ (∀ pa2 perms2 mgmt2, pa2 % PAGE_SIZE = 0 → pa2 ≠ 0 →
          map_page t' 0x1000 pa2 perms2 mgmt2 = .error .alreadyMapped)
      ∧ ∃ t'', unmap_page t' 0x1000
            = .ok (t'', if PageManagement.Manual = .Manual then some 0x2000 else none)
          ∧ PageTable.get_physical_address t'' 0x1000 = .error .notLeaf :=
  map_translate_unmap_roundtrip PageTable.empty 0x1000 0x2000
    ⟨true, false, false, false, false⟩ .Manual
    (fun _ => Or.inl rfl) (by exact trivial) (by norm_num) (by simp [PAGE_SIZE])
    (by simp [PAGE_SIZE]) (by norm_num) (by norm_num) (Or.inl rfl)

/-- `drop_in_place` of a leaf-level child table: Rust drops each of the 512
`PageTableEntry` cells in index order, and each entry's Drop runs
`set_invalid`.  Returns the leaf pages freed to the allocator. -/
def dropTable0 (t0 : Table0) : Except PTErr (List Nat) :=
  (List.finRange 512).foldlM
    (fun acc i => do
      let (_, fr) ← setInvalidCell (t0 i)
      pure (acc ++ fr))
    []

/-- `PageTableEntry::set_invalid` on a level-1 entry: a table pointer drops
its child table recursively and then frees the child's own page; otherwise
the leaf rule of `setInvalidCell` applies; the cell is zeroed either way.
Returns (new entry, leaf pages freed, number of table pages freed). -/
def setInvalidE1 (e : Ent1) : Except PTErr (Ent1 × List Nat × Nat) :=
  if e.pte.is_page_table_ptr then
    match e.child with
    | some t0 => do
      let freed ← dropTable0 t0
      pure (⟨PTE.zero, none⟩, freed, 1)
    | none => .error .brokenModel
  else do
    let (c, fr) ← setInvalidCell e.pte
    pure (⟨c, none⟩, fr, 0)

/-- `drop_in_place` of a mid-level child table. -/
def dropTable1 (t1 : Table1) : Except PTErr (List Nat × Nat) :=
  (List.finRange 512).foldlM
    (fun acc i => do
      let (_, fr, tc) ← setInvalidE1 (t1 i)
      pure (acc.1 ++ fr, acc.2 + tc))
    ([], 0)

/-- `PageTableEntry::set_invalid` on a root-level entry. -/
def setInvalidE2 (e : Ent2) : Except PTErr (Ent2 × List Nat × Nat) :=
  if e.pte.is_page_table_ptr then
    match e.child with
    | some t1 => do
      let (freed, tc) ← dropTable1 t1
      pure (⟨PTE.zero, none⟩, freed, tc + 1)
    | none => .error .brokenModel
  else do
    let (c, fr) ← setInvalidCell e.pte
    pure (⟨c, none⟩, fr, 0)

/-- `impl Drop for PageTableEntry`: drop just calls `set_invalid`. -/
def dropEnt2 (e : Ent2) : Except PTErr (Ent2 × List Nat × Nat) := setInvalidE2 e

/-- The page an Automatic leaf with nonzero PPN owns (the claim's
description of the leaf rule). -/
def cellAutoFree (c : PTE) : List Nat :=
  if c.is_leaf ∧ c.management = .Automatic ∧ c.ppn ≠ 0 then [c.ppn * 4096] else []

/-- All pages owned by Automatic leaves of a leaf-level table, in index
order. -/
def table0AutoFrees (t0 : Table0) : List Nat :=
  (List.finRange 512).foldl (fun acc i => acc ++ cellAutoFree (t0 i)) []

/-- Pages owned through a level-1 entry. -/
def e1AutoFrees (e : Ent1) : List Nat :=
  if e.pte.is_page_table_ptr then
    match e.child with
    | some t0 => table0AutoFrees t0
    | none => []
  else cellAutoFree e.pte

/-- Number of table pages owned by a level-1 entry. -/
def e1TableCount (e : Ent1) : Nat := if e.pte.is_page_table_ptr then 1 else 0

/-- Pages and table count owned by a mid-level table. -/
def table1Drop (t1 : Table1) : List Nat × Nat :=
  (List.finRange 512).foldl
    (fun acc i => (acc.1 ++ e1AutoFrees (t1 i), acc.2 + e1TableCount (t1 i)))
    ([], 0)

/-- Well-formed leaf table for dropping: no cell is table-pointer typed (a
table pointer at leaf level would send the source's destructor into an
arbitrary data page). -/
def WFdrop0 (t0 : Table0) : Bool :=
  (List.finRange 512).all (fun i => !(t0 i).is_page_table_ptr)

/-- Well-formed level-1 entry for dropping. -/
def WFdrop1 (e : Ent1) : Bool :=
  if e.pte.is_page_table_ptr then
    match e.child with
    | some t0 => WFdrop0 t0
    | none => false
  else true

/-- Well-formed root entry for dropping. -/
def WFdrop2 (e : Ent2) : Bool :=
  if e.pte.is_page_table_ptr then
    match e.child with
    | some t1 => (List.finRange 512).all (fun i => WFdrop1 (t1 i))
    | none => false
  else true

lemma setInvalidCell_eq (c : PTE) (h : c.is_page_table_ptr = false) :
    setInvalidCell c = .ok (PTE.zero, cellAutoFree c) := by
  simp only [setInvalidCell, h, cellAutoFree, Nat.mul_eq_zero, Bool.false_eq_true,
    if_false]
  split <;> simp_all

lemma dropTable0_go (t0 : Table0) (l : List (Fin 512))
    (h : ∀ i ∈ l, (t0 i).is_page_table_ptr = false) (acc : List Nat) :
    l.foldlM
      (fun acc i => do
        let (_, fr) ← setInvalidCell (t0 i)
        pure (acc ++ fr))
      acc
      = .ok (l.foldl (fun acc i => acc ++ cellAutoFree (t0 i)) acc) := by
  induction l generalizing acc with
  | nil => rfl
  | cons x xs ih =>
    have hx : (t0 x).is_page_table_ptr = false := h x (by simp)
    simp only [List.foldlM, List.foldl, setInvalidCell_eq (t0 x) hx,
      except_bind_ok, except_pure_eq]
    exact ih (fun i hi => h i (by simp [hi])) _

lemma dropTable0_wf (t0 : Table0) (h : WFdrop0 t0 = true) :
    dropTable0 t0 = .ok (table0AutoFrees t0) := by
  have h' : ∀ i ∈ List.finRange 512, (t0 i).is_page_table_ptr = false := by
    intro i _
    have := (List.all_eq_true.mp h) i (List.mem_finRange i)
    simpa using this
  exact dropTable0_go t0 (List.finRange 512) h' []

lemma setInvalidE1_wf (e : Ent1) (h : WFdrop1 e = true) :
    setInvalidE1 e = .ok (⟨PTE.zero, none⟩, e1AutoFrees e, e1TableCount e) := by
  by_cases hp : e.pte.is_page_table_ptr = true
  · cases hch : e.child with
    | some t0 =>
      have h0 : WFdrop0 t0 = true := by simpa [WFdrop1, hp, hch] using h
      simp [setInvalidE1, hp, hch, dropTable0_wf t0 h0, e1AutoFrees, e1TableCount,
        except_pure_eq, except_throw_eq, except_bind_ok, except_bind_error]
    | none => simp [WFdrop1, hp, hch] at h
  · have hp' : e.pte.is_page_table_ptr = false := by simpa using hp
    simp [setInvalidE1, hp', setInvalidCell_eq _ hp', e1AutoFrees, e1TableCount,
      except_pure_eq, except_throw_eq, except_bind_ok, except_bind_error]

lemma dropTable1_go (t1 : Table1) (l : List (Fin 512))
    (h : ∀ i ∈ l, WFdrop1 (t1 i) = true) (acc : List Nat × Nat) :
    l.foldlM
      (fun acc i => do
        let (_, fr, tc) ← setInvalidE1 (t1 i)
        pure (acc.1 ++ fr, acc.2 + tc))
      acc
      = .ok (l.foldl
          (fun acc i => (acc.1 ++ e1AutoFrees (t1 i), acc.2 + e1TableCount (t1 i)))
          acc) := by
  induction l generalizing acc with
  | nil => rfl
  | cons x xs ih =>
    have hx : WFdrop1 (t1 x) = true := h x (by simp)
    simp only [List.foldlM, List.foldl, setInvalidE1_wf (t1 x) hx,
      except_bind_ok, except_pure_eq]
    exact ih (fun i hi => h i (by simp [hi])) _

lemma dropTable1_wf (t1 : Table1) (h : ∀ i ∈ List.finRange 512, WFdrop1 (t1 i) = true) :
    dropTable1 t1 = .ok (table1Drop t1) := by
  exact dropTable1_go t1 (List.finRange 512) h ([], 0)

/-- C6.  `set_invalid()` performs exactly the destructor work the spec
describes: a table-pointer entry recursively drops its child table — freeing
every Automatic-managed leaf page with nonzero PPN in the subtree and every
descendant table page, plus the child table's own page; a non-table entry
frees exactly its own page when it is an Automatic leaf with nonzero PPN and
touches no page otherwise (Manual, CopyOnWrite, CowOwner or invalid); in
every case the 64-bit cell ends up zeroed (and, for table pointers, the
child is gone).  Dropping an entry (`impl Drop`) is the same operation. -/
theorem set_invalid_destructor_work (e : Ent2) (hwf : WFdrop2 e = true) :
    dropEnt2 e = setInvalidE2 e
    ∧ ∃ freed tcount, setInvalidE2 e = .ok (⟨PTE.zero, none⟩, freed, tcount)
      ∧ (e.pte.is_page_table_ptr = true →
          ∃ t1, e.child = some t1 ∧ freed = (table1Drop t1).1
            ∧ tcount = (table1Drop t1).2 + 1)
      ∧ (e.pte.is_page_table_ptr = false →
          freed = cellAutoFree e.pte ∧ tcount = 0) := by
  refine ⟨rfl, ?_⟩
  by_cases hp : e.pte.is_page_table_ptr = true
  · cases hch : e.child with
    | some t1 =>
      have h1 : ∀ i ∈ List.finRange 512, WFdrop1 (t1 i) = true := by
        intro i _
        have hall : (List.finRange 512).all (fun i => WFdrop1 (t1 i)) = true := by
          simpa [WFdrop2, hp, hch] using hwf
        exact (List.all_eq_true.mp hall) i (List.mem_finRange i)
      refine ⟨(table1Drop t1).1, (table1Drop t1).2 + 1, ?_, ?_, ?_⟩
      · simp [setInvalidE2, hp, hch, dropTable1_wf t1 h1,
          except_pure_eq, except_throw_eq, except_bind_ok, except_bind_error]
      · intro _; exact ⟨t1, rfl, rfl, rfl⟩
      · intro hcontra; rw [hp] at hcontra; cases hcontra
    | none => simp [WFdrop2, hp, hch] at hwf
  · have hp' : e.pte.is_page_table_ptr = false := by simpa using hp
    refine ⟨cellAutoFree e.pte, 0, ?_, ?_, ?_⟩
    · simp [setInvalidE2, hp', setInvalidCell_eq _ hp',
        except_pure_eq, except_throw_eq, except_bind_ok, except_bind_error]
    · intro hcontra; rw [hp'] at hcontra; cases hcontra
    · intro _; exact ⟨rfl, rfl⟩

/-- A concrete Automatic leaf with PPN 5 (owns physical page 0x5000). -/
def autoLeafPTE : PTE :=
  ⟨true, true, false, false, false, false, false, false, .Automatic, 5, 0⟩

/-- A leaf table holding that Automatic leaf at index 0. -/
def c6t0 : Table0 := fun i => if i = 0 then autoLeafPTE else PTE.zero

/-- A mid-level table whose entry 0 points at `c6t0`. -/
def c6t1 : Table1 := fun i => if i = 0 then ⟨tablePtrPTE, some c6t0⟩ else zeroEnt1

/-- A root entry owning the two-level subtree above. -/
def c6ent : Ent2 := ⟨tablePtrPTE, some c6t1⟩

set_option maxRecDepth 100000 in
/-- Witness for the C6 theorem at the concrete two-level entry `c6ent`. -/
theorem set_invalid_destructor_work_witness :
    dropEnt2 c6ent = setInvalidE2 c6ent
    ∧ ∃ freed tcount, setInvalidE2 c6ent = .ok (⟨PTE.zero, none⟩, freed, tcount)
      ∧ (c6ent.pte.is_page_table_ptr = true →
          ∃ t1, c6ent.child = some t1 ∧ freed = (table1Drop t1).1
            ∧ tcount = (table1Drop t1).2 + 1)
      ∧ (c6ent.pte.is_page_table_ptr = false →
          freed = cellAutoFree c6ent.pte ∧ tcount = 0) :=
  set_invalid_destructor_work c6ent (by decide)

end SV39

namespace PagePtr

/-- A RAM device of the memory inventory (`MemoryDevice` base/range pair as
consumed by init_virtual_base_offset). -/
structure MemoryDevice where
  base_address : Nat
  range : Nat
deriving DecidableEq

/-- `align_up` from virtual_page_ptr.rs: `(a + (alignment-1)) & !(alignment-1)`;
for the power-of-two alignments used here this is rounding up to the next
multiple, written with division. -/
def align_up (address alignment : Nat) : Nat :=
  (address + (alignment - 1)) / alignment * alignment

/-- `align_down`: `a & !(alignment-1)`, i.e. rounding down to a multiple. -/
def align_down (address alignment : Nat) : Nat :=
  address / alignment * alignment

/-- The highest-RAM-end computation of `init_virtual_base_offset`: fold max
of base+range over the present memory devices, then align up to a page. -/
def highest_physical_address (devs : List (Option MemoryDevice)) : Nat :=
  align_up
    (devs.foldl
      (fun acc d =>
        match d with
        | some dv => max acc (dv.base_address + dv.range)
        | none => acc)
      0)
    PAGE_SIZE

/-- `init_virtual_base_offset`'s VBASE:
`align_down(HIGHEST_VIRTUAL_ADDRESS - highest_address, PAGE_SIZE)`.
`HIGHEST_VIRTUAL_ADDRESS` is an arch-layer constant whose definition is not
under src/ (only its uses are), so it is a parameter `hva` here; none of the
accept/reject behaviour below depends on its value. -/
def virtual_base_offset (hva highest : Nat) : Nat :=
  align_down (hva - highest) PAGE_SIZE

/-- `AddressError` from virtual_page_ptr.rs. -/
inductive AddressError where
  /-- `Null`: the address is a null pointer. -/
  | null
  /-- `BadVirtualAddress { address, min, max }`. -/
  | badVirtualAddress (address lo hi : Nat)
  /-- `BadPhysicalAddress { address, max }`. -/
  | badPhysicalAddress (address hi : Nat)
  /-- `BadPageAlignment { address, alignment }`. -/
  | badPageAlignment (address alignment : Nat)
deriving DecidableEq

/-- `VirtualPagePtr::is_in_physical_address_space`: the only range check the
code performs is `address < highest && address > 0`; no lower RAM bound and
no per-region membership is consulted. -/
def is_in_physical_address_space (highest address : Nat) : Bool :=
  decide (address < highest) && decide (address > 0)

/-- `VirtualPagePtr::from_physical`: alignment check, null check, range
check, then the virtual form `VBASE + address` (`virtualize_address`). -/
def from_physical (vbase highest address : Nat) : Except AddressError Nat :=
  if address % PAGE_SIZE ≠ 0 then .error (.badPageAlignment address PAGE_SIZE)
  else if address = 0 then .error .null
  else if ¬ is_in_physical_address_space highest address then
    .error (.badPhysicalAddress address highest)
  else .ok (vbase + address)

/-- The inventory of C10's failing input: one RAM region of 128 MiB at
0x8000_0000. -/
def c10devs : List (Option MemoryDevice) := [some ⟨0x80000000, 0x8000000⟩]

/-- Its highest RAM end (0x8800_0000). -/
def c10hi : Nat := highest_physical_address c10devs

/-- VBASE for a 512 GiB virtual ceiling. -/
def c10vb : Nat := virtual_base_offset 0x8000000000 c10hi

/-- C10 counterexample.  The claim says addresses below the lowest RAM
region are rejected with the corresponding error; but the code's range
check is only `0 < p < highest_RAM_end`, so with RAM = [0x8000_0000,
0x8800_0000) the page-aligned address 0x1000 — a full page below the lowest
RAM region — is ACCEPTED and converted to `VBASE + 0x1000`. -/
theorem from_physical_accepts_below_ram :
    from_physical c10vb c10hi 0x1000 = .ok (c10vb + 0x1000)
    ∧ 0x1000 + PAGE_SIZE ≤ 0x80000000 :=
  ⟨rfl, by norm_num [PAGE_SIZE]⟩

/-- C10 (amended).  `from_physical(p)` succeeds exactly when `p` is nonzero,
page-aligned and below the (aligned-up) end of the highest RAM region —
addresses below or between RAM regions are not rejected — and on success
the returned virtual form is `VBASE + p`; unaligned addresses fail with the
alignment error, zero with the null error, and everything at or above the
highest RAM end with the out-of-range error. -/
theorem from_physical_characterization (vbase highest address : Nat) :
    (from_physical vbase highest address = .ok (vbase + address)
      ↔ (address % PAGE_SIZE = 0 ∧ address ≠ 0 ∧ address < highest))
    ∧ (address % PAGE_SIZE ≠ 0 →
        from_physical vbase highest address = .error (.badPageAlignment address PAGE_SIZE))
    ∧ (address % PAGE_SIZE = 0 → address = 0 →
        from_physical vbase highest address = .error .null)
    ∧ (address % PAGE_SIZE = 0 → address ≠ 0 → ¬ address < highest →
        from_physical vbase highest address = .error (.badPhysicalAddress address highest)) := by
  refine ⟨?_, ?_, ?_, ?_⟩
  · constructor
    · intro h
      by_cases hal : address % PAGE_SIZE = 0
      · by_cases h0 : address = 0
        · simp [from_physical, hal, h0] at h
        · by_cases hr : address < highest
          · exact ⟨hal, h0, hr⟩
          · simp [from_physical, hal, h0, is_in_physical_address_space, hr] at h
      · simp [from_physical, hal] at h
    · rintro ⟨hal, h0, hr⟩
      simp [from_physical, hal, h0, is_in_physical_address_space, hr,
        Nat.pos_of_ne_zero h0]
  · intro hal
    simp [from_physical, hal]
  · intro hal h0
    simp [from_physical, hal, h0]
  · intro hal h0 hr
    simp [from_physical, hal, h0, is_in_physical_address_space, hr]

/-- Witness for the C10 characterization at concrete inputs: with the
highest RAM end at 0x3000, address 0x2000 is accepted and maps to
VBASE + 0x2000 (VBASE = 100 · 4096 here). -/
theorem from_physical_characterization_witness :
    from_physical 409600 0x3000 0x2000 = .ok (409600 + 0x2000) :=
  (from_physical_characterization 409600 0x3000 0x2000).1.mpr
    ⟨by norm_num [PAGE_SIZE], by norm_num, by norm_num⟩

end PagePtr

namespace VirtIO

/-- Queue size of the bootloader driver (`QUEUE_SIZE` in block_device.rs;
the driver uses 16). -/
def QUEUE_SIZE : Nat := 16

/-- Sector size (`SECTOR_SIZE`). -/
def SECTOR_SIZE : Nat := 512

/-- Descriptor flag: the chain continues via `next`. -/
def VIRT_Q_DESC_F_NEXT : Nat := 1

/-- Descriptor flag: the device writes this buffer. -/
def VIRT_Q_DESC_F_WRITE : Nat := 2

/-- Block request type: read. -/
def VIRTIO_BLK_T_IN : Nat := 0

/-- `VirtIoDescriptor`: {address, length, flags, next}. -/
structure VirtIoDescriptor where
  address : Nat
  length : Nat
  flags : Nat
  next : Nat
deriving DecidableEq

/-- `VirtIoBlockRequest`: {operation, reserved, sector, status}. -/
structure VirtIoBlockRequest where
  operation : Nat
  reserved : Nat
  sector : Nat
  status : Nat
deriving DecidableEq

/-- `size_of::<VirtIoBlockRequest>()`: the repr(C) layout {u32, u32, u64,
u8} has size 24 — 4 + 4 + 8 + 1 bytes, padded to the 8-byte alignment of
the u64 field. -/
def BLOCK_REQUEST_SIZE : Nat := 24

/-- `VirtIoAvailable`: driver-produced available ring. -/
structure VirtIoAvailable where
  flags : Nat
  index : Nat
  ring : Fin 16 → Nat
  used_event : Nat

/-- The driver-side state of `BlockDevice`: descriptor table, available
ring, and the private counters.  The used ring is device-written shared
memory; the driver only reads its `index` field by volatile loads, which
the model supplies through a `DevBehavior` oracle. -/
structure BlockDevice where
  queue_descriptor : Fin 16 → VirtIoDescriptor
  queue_available : VirtIoAvailable
  available_index : Nat
  last_used_index : Nat

/-- `BlockDevice::new`: everything zeroed. -/
def BlockDevice.new : BlockDevice :=
  ⟨fun _ => ⟨0, 0, 0, 0⟩, ⟨0, 0, fun _ => 0, 0⟩, 0, 0⟩

/-- What the device does during one request: the successive values the
driver's volatile reads of `UsedRing.index` observe (read number `k` sees
`usedReads k`), and the value the device stores into the one-byte status
cell, if it stores one. -/
structure DevBehavior where
  usedReads : Nat → Nat
  statusWrite : Option Nat

/-- Abort sites of the driver model. -/
inductive DrvPanic where
  /-- `self.queue_descriptor[descriptor_index]` with an index ≥ QUEUE_SIZE
  (a Rust bounds panic; unreachable, since `available_index` is always
  produced by `next_index`). -/
  | descriptorIndexOutOfRange
deriving DecidableEq

/-- The local `next_index` helper of read_sector: wrap by QUEUE_SIZE. -/
def next_index (index : Nat) : Nat := index % QUEUE_SIZE

lemma next_index_lt (x : Nat) : next_index x < 16 := Nat.mod_lt _ (by norm_num [QUEUE_SIZE])

/-- The spin loop of read_sector: keep reading `UsedRing.index` while it
equals `last`; returns the number of the first read that differs, or `none`
when `fuel` reads were all equal (the source would still be spinning — it
has no iteration bound of its own). -/
def spinPollAux (usedReads : Nat → Nat) (last : Nat) : Nat → Nat → Option Nat
  | _, 0 => none
  | k, fuel + 1 =>
    if usedReads k = last then spinPollAux usedReads last (k + 1) fuel else some k

/-- Everything read_sector produces: the new driver state, the BlockRequest
it built, the value it stored into the status cell before submitting, and
the Ok/Err result. -/
structure ReadOutcome where
  device : BlockDevice
  request : VirtIoBlockRequest
  statusInit : Nat
  ok : Bool

/-- `BlockDevice::read_sector`, transcribed step by step:
build the request header; initialize the local status byte to 0; write the
three descriptors at `available_index`, `available_index + 1` and
`available_index + 2` (the latter two wrapped by QUEUE_SIZE); publish the
head index in `ring[available_index % QUEUE_SIZE]`; advance
`AvailableRing.index` by one wrapped by QUEUE_SIZE (the `+ 1` itself is u16
arithmetic); notify; spin on the used-index reads; re-read the used index
into `last_used_index`; advance `available_index` by three wrapped by
QUEUE_SIZE; report Ok iff the status cell reads 0.  `requestAddr`,
`bufferAddr` and `statusAddr` stand for the machine addresses of the stack
request, the caller's buffer and the status byte.  Result `none` means the
spin had not finished within `fuel` reads. -/
def read_sector (st : BlockDevice) (sector requestAddr bufferAddr statusAddr : Nat)
    (dev : DevBehavior) (fuel : Nat) : Option (Except DrvPanic ReadOutcome) :=
  let request : VirtIoBlockRequest := ⟨VIRTIO_BLK_T_IN, 0, sector, 0⟩
  let status0 : Nat := 0
  let di := st.available_index
  if h : di < 16 then
    let d0 : VirtIoDescriptor :=
      ⟨requestAddr, BLOCK_REQUEST_SIZE, VIRT_Q_DESC_F_NEXT, next_index (di + 1)⟩
    let d1 : VirtIoDescriptor :=
      ⟨bufferAddr, SECTOR_SIZE, VIRT_Q_DESC_F_WRITE ||| VIRT_Q_DESC_F_NEXT,
       next_index (di + 2)⟩
    let d2 : VirtIoDescriptor := ⟨statusAddr, 1, VIRT_Q_DESC_F_WRITE, 0⟩
    let qd := Function.update st.queue_descriptor ⟨di, h⟩ d0
    let qd := Function.update qd ⟨next_index (di + 1), next_index_lt _⟩ d1
    let qd := Function.update qd ⟨next_index (di + 2), next_index_lt _⟩ d2
    let ring := Function.update st.queue_available.ring
      ⟨st.available_index % QUEUE_SIZE, next_index_lt _⟩ di
    let avail : VirtIoAvailable :=
      { st.queue_available with
          ring := ring
          index := next_index ((st.queue_available.index + 1) % 2 ^ 16) }
    match spinPollAux dev.usedReads st.last_used_index 0 fuel with
    | none => none
    | some k =>
      let st' : BlockDevice :=
        { queue_descriptor := qd
          queue_available := avail
          available_index := next_index ((st.available_index + 3) % 2 ^ 16)
          last_used_index := dev.usedReads (k + 1) }
      let finalStatus := (dev.statusWrite).getD status0
      some (.ok ⟨st', request, status0, finalStatus == 0⟩)
  else some (.error .descriptorIndexOutOfRange)

/-- A device that completes each request at once (the first used-index read
already differs) and stores status 0. -/
def promptDev (st : BlockDevice) : DevBehavior :=
  ⟨fun _ => (st.last_used_index + 1) % 2 ^ 16, some 0⟩

/-- One successful read against the promptly-completing device. -/
def stepCompleted (st : BlockDevice) : BlockDevice :=
  match read_sector st 0 0x81000000 0x82000000 0x83000000 (promptDev st) 2 with
  | some (.ok o) => o.device
  | _ => st

/-- Sixteen successful reads against the promptly-completing device. -/
def c7_16 : BlockDevice := stepCompleted^[16] BlockDevice.new

/-- C7 counterexample.  The claim says `AvailableRing.index` is a
free-running counter wrapped only modulo 2^16, advancing by one per
submission — after 16 submissions from a fresh device it would read
16 % 2^16 = 16.  The code wraps it by QUEUE_SIZE (16) instead
(`next_index((index + 1) as usize)`), so it reads 0. -/
theorem avail_index_wraps_mod_queue_size :
    c7_16.queue_available.index = 0
    ∧ c7_16.queue_available.index ≠ 16 % 2 ^ 16 := by
  refine ⟨rfl, ?_⟩
  rw [show c7_16.queue_available.index = 0 from rfl]
  norm_num

/-- C7 (amended).  Per submission the code advances `AvailableRing.index`
by one wrapped by QUEUE_SIZE = 16 (not 2^16), and writes the
head-descriptor index into `ring[available_index % QUEUE_SIZE]` — indexed
by the driver's private `available_index` counter (which advances by three
per call), not by `AvailableRing.index`; after one successful read from the
fresh device, `AvailableRing.index` and the observed `UsedRing.index` have
each advanced by exactly 1. -/
theorem avail_index_increment_characterization
    (st : BlockDevice) (sector ra ba sa : Nat) (dev : DevBehavior) (fuel : Nat)
    (o : ReadOutcome)
    (h : read_sector st sector ra ba sa dev fuel = some (.ok o)) :
    o.device.queue_available.index
        = (st.queue_available.index + 1) % 2 ^ 16 % QUEUE_SIZE
    ∧ o.device.queue_available.ring
        ⟨st.available_index % QUEUE_SIZE, next_index_lt _⟩ = st.available_index
    ∧ o.device.available_index = (st.available_index + 3) % 2 ^ 16 % QUEUE_SIZE
    ∧ (stepCompleted BlockDevice.new).queue_available.index = 1
    ∧ (stepCompleted BlockDevice.new).last_used_index = 1 := by
  rw [read_sector] at h
  split at h
  · split at h
    · exact absurd h (by simp)
    · simp only [Option.some.injEq, Except.ok.injEq] at h
      subst h
      refine ⟨rfl, ?_, rfl, rfl, rfl⟩
      simp
  · exact absurd h (by simp)

/-- The outcome of one read from the fresh device. -/
def c7_first : ReadOutcome :=
  match read_sector BlockDevice.new 0 0x81000000 0x82000000 0x83000000
      (promptDev BlockDevice.new) 2 with
  | some (.ok o) => o
  | _ => ⟨BlockDevice.new, ⟨0, 0, 0, 0⟩, 0, false⟩

/-- Witness for the C7 theorem at the fresh device and the
promptly-completing device behaviour. -/
theorem avail_index_increment_characterization_witness :
    c7_first.device.queue_available.index
        = (BlockDevice.new.queue_available.index + 1) % 2 ^ 16 % QUEUE_SIZE
    ∧ c7_first.device.queue_available.ring
        ⟨BlockDevice.new.available_index % QUEUE_SIZE, next_index_lt _⟩
        = BlockDevice.new.available_index
    ∧ c7_first.device.available_index
        = (BlockDevice.new.available_index + 3) % 2 ^ 16 % QUEUE_SIZE
    ∧ (stepCompleted BlockDevice.new).queue_available.index = 1
    ∧ (stepCompleted BlockDevice.new).last_used_index = 1 :=
  avail_index_increment_characterization BlockDevice.new 0 0x81000000 0x82000000
    0x83000000 (promptDev BlockDevice.new) 2 c7_first rfl

/-- The first read on a fresh device, sector 17, with a device that
completes at once and stores status 0. -/
def c8_run : Option (Except DrvPanic ReadOutcome) :=
  read_sector BlockDevice.new 17 0x81000000 0x82000000 0x83000000
    ⟨fun _ => 1, some 0⟩ 2

/-- Its outcome. -/
def c8_o : ReadOutcome :=
  match c8_run with
  | some (.ok o) => o
  | _ => ⟨BlockDevice.new, ⟨0, 0, 0, 0⟩, 0, false⟩

/-- C8 counterexample.  On the very first request (slots 0, 1, 2 as the
claim assumes) descriptor 0's length is `size_of::<VirtIoBlockRequest>()`
= 24 — the driver's request struct carries the status byte and padding —
not the 16 the claim states, and the status cell is initialized to 0, not
0xff. -/
theorem first_chain_header_length_and_status :
    c8_run = some (.ok c8_o)
    ∧ (c8_o.device.queue_descriptor 0).length = 24
    ∧ (c8_o.device.queue_descriptor 0).length ≠ 16
    ∧ c8_o.statusInit = 0
    ∧ c8_o.statusInit ≠ 0xff := by
  exact ⟨rfl, rfl, by decide, rfl, by decide⟩

/-- C8 (amended).  read_sector first sets the one-byte status cell to 0,
then builds the 3-descriptor chain at slots ai, ai+1, ai+2 (mod QUEUE_SIZE)
of the descriptor table, where ai is the driver's available_index (0, 1, 2
on the first request): descriptor 0 holds the address of a
BlockRequest{type=IN, sector=s} with length 24, flags NEXT, next=ai+1;
descriptor 1 holds the caller's 512-byte buffer with length 512, flags
NEXT|WRITE, next=ai+2; descriptor 2 holds the status byte with length 1,
flags WRITE, next=0. -/
theorem read_sector_descriptor_chain
    (st : BlockDevice) (sector ra ba sa : Nat) (dev : DevBehavior) (fuel : Nat)
    (o : ReadOutcome)
    (h : read_sector st sector ra ba sa dev fuel = some (.ok o)) :
    o.statusInit = 0
    ∧ o.request = ⟨VIRTIO_BLK_T_IN, 0, sector, 0⟩
    ∧ o.device.queue_descriptor ⟨next_index st.available_index, next_index_lt _⟩
        = ⟨ra, BLOCK_REQUEST_SIZE, VIRT_Q_DESC_F_NEXT,
            next_index (st.available_index + 1)⟩
    ∧ o.device.queue_descriptor
          ⟨next_index (st.available_index + 1), next_index_lt _⟩
        = ⟨ba, SECTOR_SIZE, VIRT_Q_DESC_F_WRITE ||| VIRT_Q_DESC_F_NEXT,
            next_index (st.available_index + 2)⟩
    ∧ o.device.queue_descriptor
          ⟨next_index (st.available_index + 2), next_index_lt _⟩
        = ⟨sa, 1, VIRT_Q_DESC_F_WRITE, 0⟩ := by
  rw [read_sector] at h
  split at h
  case isTrue hdi =>
    split at h
    · exact absurd h (by simp)
    · simp only [Option.some.injEq, Except.ok.injEq] at h
      subst h
      have e0 : next_index st.available_index = st.available_index :=
        Nat.mod_eq_of_lt hdi
      refine ⟨rfl, rfl, ?_, ?_, ?_⟩
      · have hfin : (⟨next_index st.available_index, next_index_lt _⟩ : Fin 16)
            = ⟨st.available_index, hdi⟩ := by simp [e0]
        dsimp only
        rw [hfin]
        rw [Function.update_noteq (by simp [Fin.ext_iff, next_index, QUEUE_SIZE]; omega)]
        rw [Function.update_noteq (by simp [Fin.ext_iff, next_index, QUEUE_SIZE]; omega)]
        rw [Function.update_same]
      · dsimp only
        rw [Function.update_noteq (by simp [Fin.ext_iff, next_index, QUEUE_SIZE]; omega)]
        rw [Function.update_same]
      · dsimp only
        rw [Function.update_same]
  case isFalse => exact absurd h (by simp)

/-- Witness for the C8 theorem at the first request on the fresh device. -/
theorem read_sector_descriptor_chain_witness :
    c8_o.statusInit = 0
    ∧ c8_o.request = ⟨VIRTIO_BLK_T_IN, 0, 17, 0⟩
    ∧ c8_o.device.queue_descriptor
          ⟨next_index BlockDevice.new.available_index, next_index_lt _⟩
        = ⟨0x81000000, BLOCK_REQUEST_SIZE, VIRT_Q_DESC_F_NEXT,
            next_index (BlockDevice.new.available_index + 1)⟩
    ∧ c8_o.device.queue_descriptor
          ⟨next_index (BlockDevice.new.available_index + 1), next_index_lt _⟩
        = ⟨0x82000000, SECTOR_SIZE, VIRT_Q_DESC_F_WRITE ||| VIRT_Q_DESC_F_NEXT,
            next_index (BlockDevice.new.available_index + 2)⟩
    ∧ c8_o.device.queue_descriptor
          ⟨next_index (BlockDevice.new.available_index + 2), next_index_lt _⟩
        = ⟨0x83000000, 1, VIRT_Q_DESC_F_WRITE, 0⟩ :=
  read_sector_descriptor_chain BlockDevice.new 17 0x81000000 0x82000000 0x83000000
    ⟨fun _ => 1, some 0⟩ 2 c8_o rfl

/-- A device that never completes: every volatile read of `UsedRing.index`
observes the initial value 0.  It never writes the status byte. -/
def stuckDev : DevBehavior := ⟨fun _ => 0, none⟩

lemma spinPollAux_stuck (fuel k : Nat) : spinPollAux (fun _ => 0) 0 k fuel = none := by
  induction fuel generalizing k with
  | zero => rfl
  | succ n ih => simp [spinPollAux, ih]

/-- C9 counterexample.  The claim says the poll has a finite iteration
limit past which read_sector returns a timeout error.  The code's spin
(`while last_used_index == read_queue_used_index() {}`) has no bound and
the driver has no timeout error value: against a device that never
completes, read_sector has not returned after ANY number of iterations. -/
theorem stuck_device_never_returns :
    ¬ ∃ fuel r,
      read_sector BlockDevice.new 0 0x81000000 0x82000000 0x83000000 stuckDev fuel
        = some r := by
  rintro ⟨fuel, r, h⟩
  rw [read_sector] at h
  simp [stuckDev, BlockDevice.new, spinPollAux_stuck] at h

/-- C9 (amended).  The poll is an unbounded spin: read_sector's wait loop
returns only at the first read of `UsedRing.index` that differs from
`last_used_index`, and spins for as long as every read equals it —
there is no iteration limit and no timeout result. -/
theorem spin_poll_characterization
    (usedReads : Nat → Nat) (last : Nat) (fuel k n : Nat)
    (h : spinPollAux usedReads last k fuel = some n) :
    usedReads n ≠ last ∧ ∀ m, k ≤ m → m < n → usedReads m = last := by
  induction fuel generalizing k with
  | zero => cases h
  | succ f ih =>
    rw [spinPollAux] at h
    by_cases he : usedReads k = last
    · rw [if_pos he] at h
      obtain ⟨h1, h2⟩ := ih (k + 1) h
      refine ⟨h1, fun m hkm hmn => ?_⟩
      by_cases hm : m = k
      · exact hm ▸ he
      · exact h2 m (by omega) hmn
    · rw [if_neg he] at h
      injection h with h
      subst h
      exact ⟨he, fun m hkm hmn => absurd hkm (by omega)⟩

/-- Witness for the C9 spin characterization: a device whose third read
differs. -/
theorem spin_poll_characterization_witness :
    (fun i => if i < 3 then 0 else 7) 3 ≠ 0
    ∧ ∀ m, 0 ≤ m → m < 3 → (fun i => if i < 3 then 0 else 7) m = 0 :=
  spin_poll_characterization (fun i => if i < 3 then 0 else 7) 0 10 0 3 (by decide)

end VirtIO

end Xtra
